import Mathlib

/-!
Shallow embedding of the storage driver resolver (`pkg/storage/storage.go`)
and the reconciliation controller (`pkg/operator/controller.go`) of the
cluster-image-registry-operator, together with theorems settling the
specification claims about them.
-/

namespace ImageRegistryOperator

/-! ## Storage configuration data model

The backend parameter structs live in the `apis` package, which is not part
of the embedded source; the resolver only tests them for presence and passes
them through.  Fields below follow the spec's description of the parameters
(region, bucket, container, claim). -/

/-- `ImageRegistryConfigStorageEmptyDir`: the EmptyDir backend carries no
parameters. -/
structure ImageRegistryConfigStorageEmptyDir where
  deriving DecidableEq

/-- Modelled from the spec: S3 backend parameters (bucket, region). -/
structure ImageRegistryConfigStorageS3 where
  bucket : String
  region : String
  deriving DecidableEq

/-- Modelled from the spec: Swift backend parameters (container). -/
structure ImageRegistryConfigStorageSwift where
  container : String
  deriving DecidableEq

/-- Modelled from the spec: GCS backend parameters (bucket). -/
structure ImageRegistryConfigStorageGCS where
  bucket : String
  deriving DecidableEq

/-- Modelled from the spec: PVC backend parameters (claim name). -/
structure ImageRegistryConfigStoragePVC where
  claim : String
  deriving DecidableEq

/-- Modelled from the spec: Azure backend parameters (container). -/
structure ImageRegistryConfigStorageAzure where
  container : String
  deriving DecidableEq

/-- `ImageRegistryConfigStorage`: the storage configuration union; a Go struct
of six nilable pointers, one per backend. -/
structure ImageRegistryConfigStorage where
  EmptyDir : Option ImageRegistryConfigStorageEmptyDir
  S3 : Option ImageRegistryConfigStorageS3
  Swift : Option ImageRegistryConfigStorageSwift
  GCS : Option ImageRegistryConfigStorageGCS
  PVC : Option ImageRegistryConfigStoragePVC
  Azure : Option ImageRegistryConfigStorageAzure
  deriving DecidableEq

/-- A storage `Driver`.  The per-backend implementations live in their own
packages and are collaborators behind the `Driver` interface; what the
resolver decides is which backend's driver is instantiated, so a driver is
embedded as its backend tag together with the configuration it was built
from. -/
inductive Driver where
  | emptydir : ImageRegistryConfigStorageEmptyDir → Driver
  | s3 : ImageRegistryConfigStorageS3 → Driver
  | swift : ImageRegistryConfigStorageSwift → Driver
  | gcs : ImageRegistryConfigStorageGCS → Driver
  | pvc : ImageRegistryConfigStoragePVC → Driver
  | azure : ImageRegistryConfigStorageAzure → Driver
  deriving DecidableEq

/-- The backend name of a driver, matching the name strings appended by
`newDriver`. -/
def Driver.backendName : Driver → String
  | Driver.emptydir _ => "EmptyDir"
  | Driver.s3 _ => "S3"
  | Driver.swift _ => "Swift"
  | Driver.gcs _ => "GCS"
  | Driver.pvc _ => "PVC"
  | Driver.azure _ => "Azure"

/-- Errors out of the resolver.  `errStorageNotConfigured` embeds the
sentinel `ErrStorageNotConfigured`, which the source compares by identity;
the ambiguous-configuration error carries the driver count and the list of
backend names interpolated into its message. -/
inductive StorageError where
  | errStorageNotConfigured
  | ambiguousConfiguration (got : Nat) (names : List String)
  | pvcDriverError (msg : String)
  | installConfigError (msg : String)
  deriving DecidableEq

/-- The error text, mirroring the `fmt.Errorf` format strings of the
source. -/
def StorageError.message : StorageError → String
  | StorageError.errStorageNotConfigured => "storage backend not configured"
  | StorageError.ambiguousConfiguration got names =>
      "exactly one storage type should be configured at the same time, got "
        ++ toString got ++ ": " ++ toString names
  | StorageError.pvcDriverError msg => msg
  | StorageError.installConfigError msg => msg

/-- Appending one recognized backend to the accumulated `names`/`drivers`
pair, mirroring the paired `append` statements of `newDriver`. -/
def addDriver (p : List String × List Driver) (name : String) (d : Driver) :
    List String × List Driver :=
  (p.1 ++ [name], p.2 ++ [d])

/-- The final `switch len(drivers)` of `newDriver`: zero drivers is
`ErrStorageNotConfigured`, one driver is returned, more is the
ambiguous-configuration error naming all collected backends. -/
def switchDrivers (p : List String × List Driver) : Except StorageError Driver :=
  match p.2 with
  | [] => Except.error StorageError.errStorageNotConfigured
  | [d] => Except.ok d
  | ds => Except.error (StorageError.ambiguousConfiguration ds.length p.1)

/-- The tail of `newDriver` after the PVC branch: the Azure check followed by
the final switch. -/
def newDriverTail (p : List String × List Driver)
    (cfg : ImageRegistryConfigStorage) : Except StorageError Driver :=
  let p :=
    match cfg.Azure with
    | some c => addDriver p "Azure" (Driver.azure c)
    | none => p
  switchDrivers p

/-- `newDriver` (`storage.go`): walks the six variants in source order,
collecting a name and a driver for each populated one; `pvc.NewDriver` is the
only per-backend constructor that can fail, and its failure is returned
immediately.  `pvcNew` stands for `pvc.NewDriver`, whose body is in the pvc
package (a collaborator). -/
def newDriver (pvcNew : ImageRegistryConfigStoragePVC → Except String Driver)
    (cfg : ImageRegistryConfigStorage) : Except StorageError Driver :=
  let p : List String × List Driver := ([], [])
  let p :=
    match cfg.EmptyDir with
    | some c => addDriver p "EmptyDir" (Driver.emptydir c)
    | none => p
  let p :=
    match cfg.S3 with
    | some c => addDriver p "S3" (Driver.s3 c)
    | none => p
  let p :=
    match cfg.Swift with
    | some c => addDriver p "Swift" (Driver.swift c)
    | none => p
  let p :=
    match cfg.GCS with
    | some c => addDriver p "GCS" (Driver.gcs c)
    | none => p
  match cfg.PVC with
  | some c =>
    match pvcNew c with
    | Except.error e => Except.error (StorageError.pvcDriverError e)
    | Except.ok drv => newDriverTail (addDriver p "PVC" drv) cfg
  | none => newDriverTail p cfg

/-- Modelled from the spec: `pvc.NewDriver` is not under src (only its call
site is); per §4.1 the resolver "for each populated variant, instantiates the
corresponding driver", so the PVC constructor is modelled as always
succeeding with the PVC driver for its configuration. -/
def pvcNewDriver (c : ImageRegistryConfigStoragePVC) : Except String Driver :=
  Except.ok (Driver.pvc c)

/-- The names of the populated variants, in the order `newDriver` collects
them. -/
def populatedNames (cfg : ImageRegistryConfigStorage) : List String :=
  (if cfg.EmptyDir.isSome then ["EmptyDir"] else [])
    ++ (if cfg.S3.isSome then ["S3"] else [])
    ++ (if cfg.Swift.isSome then ["Swift"] else [])
    ++ (if cfg.GCS.isSome then ["GCS"] else [])
    ++ (if cfg.PVC.isSome then ["PVC"] else [])
    ++ (if cfg.Azure.isSome then ["Azure"] else [])

/-- The number of populated variants. -/
def countConfigured (cfg : ImageRegistryConfigStorage) : Nat :=
  (populatedNames cfg).length

/-! ## Platform inference (`getPlatformStorage`, `NewDriver`) -/

/-- The platform section of the installer configuration: four nilable
platform descriptors, as dereferenced by `getPlatformStorage`. -/
structure Platform where
  Libvirt : Option Unit
  AWS : Option Unit
  Azure : Option Unit
  OpenStack : Option Unit
  deriving DecidableEq

/-- The installer configuration as used by `getPlatformStorage`. -/
structure InstallConfig where
  Platform : Platform
  deriving DecidableEq

/-- The all-nil storage configuration (`var cfg`). -/
def emptyStorageConfig : ImageRegistryConfigStorage :=
  ⟨none, none, none, none, none, none⟩

/-- `getPlatformStorage` (`storage.go`): fetches the install config (the
result of the `clusterconfig.GetInstallConfig` collaborator is passed in) and
maps the detected platform to a storage variant: Libvirt gets EmptyDir, AWS
gets S3, Azure gets Azure, OpenStack gets Swift; an unrecognized platform
leaves the configuration empty with no error. -/
def getPlatformStorage (installConfigResult : Except String InstallConfig) :
    Except String ImageRegistryConfigStorage :=
  match installConfigResult with
  | Except.error e => Except.error e
  | Except.ok installConfig =>
    if installConfig.Platform.Libvirt.isSome then
      Except.ok ⟨some ⟨⟩, none, none, none, none, none⟩
    else if installConfig.Platform.AWS.isSome then
      Except.ok ⟨none, some ⟨"", ""⟩, none, none, none, none⟩
    else if installConfig.Platform.Azure.isSome then
      Except.ok ⟨none, none, none, none, none, some ⟨""⟩⟩
    else if installConfig.Platform.OpenStack.isSome then
      Except.ok ⟨none, none, some ⟨""⟩, none, none, none⟩
    else
      Except.ok emptyStorageConfig

/-- `NewDriver` (`storage.go`): tries `newDriver`; exactly on the
`ErrStorageNotConfigured` sentinel it overwrites the configuration with the
platform-inferred one and retries `newDriver` once.  Returns the (possibly
overwritten) configuration together with the result, mirroring the
`*cfg` out-parameter. -/
def NewDriver (pvcNew : ImageRegistryConfigStoragePVC → Except String Driver)
    (installConfigResult : Except String InstallConfig)
    (cfg : ImageRegistryConfigStorage) :
    ImageRegistryConfigStorage × Except StorageError Driver :=
  match newDriver pvcNew cfg with
  | Except.error StorageError.errStorageNotConfigured =>
    match getPlatformStorage installConfigResult with
    | Except.error e =>
        (cfg, Except.error (StorageError.installConfigError
          ("unable to get storage configuration from cluster install config: " ++ e)))
    | Except.ok cfg2 => (cfg2, newDriver pvcNew cfg2)
  | r => (cfg, r)

/-- The backend names a resolution result carries a driver for: the singleton
of the returned driver's backend on success, empty on failure. -/
def resolutionBackends : Except StorageError Driver → List String
  | Except.ok d => [d.backendName]
  | Except.error _ => []

/-- Whether a resolution result is a driver (no error). -/
def resolutionSucceeded : Except StorageError Driver → Bool
  | Except.ok _ => true
  | Except.error _ => false

/-- A configuration with only S3 populated, used as concrete witness input. -/
def cfgOnlyS3 : ImageRegistryConfigStorage :=
  ⟨none, some ⟨"bucket", "region"⟩, none, none, none, none⟩

/-- A configuration with S3 and GCS populated, used as concrete input for the
ambiguity claims. -/
def cfgS3GCS : ImageRegistryConfigStorage :=
  ⟨none, some ⟨"bucket", "region"⟩, none, some ⟨"gbucket"⟩, none, none⟩

/-- Install config descriptors, one per platform recognized by
`getPlatformStorage`. -/
def installConfigLibvirt : InstallConfig := ⟨⟨some (), none, none, none⟩⟩

/-- Install config descriptor with only the AWS platform set. -/
def installConfigAWS : InstallConfig := ⟨⟨none, some (), none, none⟩⟩

/-- Install config descriptor with only the Azure platform set. -/
def installConfigAzure : InstallConfig := ⟨⟨none, none, some (), none⟩⟩

/-- Install config descriptor with only the OpenStack platform set. -/
def installConfigOpenStack : InstallConfig := ⟨⟨none, none, none, some ()⟩⟩

/-- C1: with exactly one variant populated, `newDriver` returns a driver of
exactly that backend and no error. -/
theorem c1_single_variant_resolves (cfg : ImageRegistryConfigStorage)
    (h : countConfigured cfg = 1) :
    resolutionSucceeded (newDriver pvcNewDriver cfg) = true ∧
      resolutionBackends (newDriver pvcNewDriver cfg) = populatedNames cfg := by
  obtain ⟨e, s, w, g, p, a⟩ := cfg
  cases e <;> cases s <;> cases w <;> cases g <;> cases p <;> cases a <;>
    simp_all [countConfigured, populatedNames, newDriver, newDriverTail,
      addDriver, switchDrivers, pvcNewDriver, resolutionSucceeded,
      resolutionBackends, Driver.backendName]

/-- Witness for C1 at the S3-only configuration. -/
theorem c1_single_variant_resolves_witness :
    countConfigured cfgOnlyS3 = 1 ∧
      (resolutionSucceeded (newDriver pvcNewDriver cfgOnlyS3) = true ∧
        resolutionBackends (newDriver pvcNewDriver cfgOnlyS3) =
          populatedNames cfgOnlyS3) :=
  ⟨by decide, c1_single_variant_resolves cfgOnlyS3 (by decide)⟩

/-- C2: with two or more variants populated, `newDriver` fails with the
ambiguous-configuration error carrying the populated count and the name of
every populated variant. -/
theorem c2_multiple_variants_ambiguous (cfg : ImageRegistryConfigStorage)
    (h : 2 ≤ countConfigured cfg) :
    newDriver pvcNewDriver cfg =
      Except.error (StorageError.ambiguousConfiguration (countConfigured cfg)
        (populatedNames cfg)) := by
  obtain ⟨e, s, w, g, p, a⟩ := cfg
  cases e <;> cases s <;> cases w <;> cases g <;> cases p <;> cases a <;>
    simp_all [countConfigured, populatedNames, newDriver, newDriverTail,
      addDriver, switchDrivers, pvcNewDriver]

/-- Witness for C2 at the S3-and-GCS configuration. -/
theorem c2_multiple_variants_ambiguous_witness :
    2 ≤ countConfigured cfgS3GCS ∧
      newDriver pvcNewDriver cfgS3GCS =
        Except.error (StorageError.ambiguousConfiguration
          (countConfigured cfgS3GCS) (populatedNames cfgS3GCS)) :=
  ⟨by decide, c2_multiple_variants_ambiguous cfgS3GCS (by decide)⟩

/-- C3: with zero variants populated, `newDriver` fails with
`ErrStorageNotConfigured`; `NewDriver` then, for each of the four platform
descriptors known to `getPlatformStorage`, overwrites the configuration with
exactly one inferred variant following the platform mapping (Libvirt gets
EmptyDir, AWS gets S3, Azure gets Azure, OpenStack gets Swift) and the single
retried resolution succeeds with the matching driver. -/
theorem c3_zero_variants_platform_inference (cfg : ImageRegistryConfigStorage)
    (h : countConfigured cfg = 0) :
    newDriver pvcNewDriver cfg = Except.error StorageError.errStorageNotConfigured ∧
    NewDriver pvcNewDriver (Except.ok installConfigLibvirt) cfg =
      (⟨some ⟨⟩, none, none, none, none, none⟩, Except.ok (Driver.emptydir ⟨⟩)) ∧
    NewDriver pvcNewDriver (Except.ok installConfigAWS) cfg =
      (⟨none, some ⟨"", ""⟩, none, none, none, none⟩, Except.ok (Driver.s3 ⟨"", ""⟩)) ∧
    NewDriver pvcNewDriver (Except.ok installConfigAzure) cfg =
      (⟨none, none, none, none, none, some ⟨""⟩⟩, Except.ok (Driver.azure ⟨""⟩)) ∧
    NewDriver pvcNewDriver (Except.ok installConfigOpenStack) cfg =
      (⟨none, none, some ⟨""⟩, none, none, none⟩, Except.ok (Driver.swift ⟨""⟩)) ∧
    countConfigured ⟨some ⟨⟩, none, none, none, none, none⟩ = 1 ∧
    countConfigured ⟨none, some ⟨"", ""⟩, none, none, none, none⟩ = 1 ∧
    countConfigured ⟨none, none, none, none, none, some ⟨""⟩⟩ = 1 ∧
    countConfigured ⟨none, none, some ⟨""⟩, none, none, none⟩ = 1 := by
  obtain ⟨e, s, w, g, p, a⟩ := cfg
  cases e <;> cases s <;> cases w <;> cases g <;> cases p <;> cases a <;>
    first
      | exact ⟨rfl, rfl, rfl, rfl, rfl, rfl, rfl, rfl, rfl⟩
      | simp [countConfigured, populatedNames] at h

/-- Witness for C3 at the empty configuration. -/
theorem c3_zero_variants_platform_inference_witness :
    countConfigured emptyStorageConfig = 0 ∧
      (newDriver pvcNewDriver emptyStorageConfig =
        Except.error StorageError.errStorageNotConfigured ∧
      NewDriver pvcNewDriver (Except.ok installConfigLibvirt) emptyStorageConfig =
        (⟨some ⟨⟩, none, none, none, none, none⟩, Except.ok (Driver.emptydir ⟨⟩)) ∧
      NewDriver pvcNewDriver (Except.ok installConfigAWS) emptyStorageConfig =
        (⟨none, some ⟨"", ""⟩, none, none, none, none⟩, Except.ok (Driver.s3 ⟨"", ""⟩)) ∧
      NewDriver pvcNewDriver (Except.ok installConfigAzure) emptyStorageConfig =
        (⟨none, none, none, none, none, some ⟨""⟩⟩, Except.ok (Driver.azure ⟨""⟩)) ∧
      NewDriver pvcNewDriver (Except.ok installConfigOpenStack) emptyStorageConfig =
        (⟨none, none, some ⟨""⟩, none, none, none⟩, Except.ok (Driver.swift ⟨""⟩)) ∧
      countConfigured ⟨some ⟨⟩, none, none, none, none, none⟩ = 1 ∧
      countConfigured ⟨none, some ⟨"", ""⟩, none, none, none, none⟩ = 1 ∧
      countConfigured ⟨none, none, none, none, none, some ⟨""⟩⟩ = 1 ∧
      countConfigured ⟨none, none, some ⟨""⟩, none, none, none⟩ = 1) :=
  ⟨by decide, c3_zero_variants_platform_inference emptyStorageConfig (by decide)⟩

/-! ## Controller data model (`pkg/operator/controller.go`) -/

instance {ε α : Type} [DecidableEq ε] [DecidableEq α] : DecidableEq (Except ε α) :=
  fun a b =>
    match a, b with
    | Except.ok x, Except.ok y =>
      if h : x = y then isTrue (by rw [h]) else isFalse (by simp [h])
    | Except.error x, Except.error y =>
      if h : x = y then isTrue (by rw [h]) else isFalse (by simp [h])
    | Except.ok _, Except.error _ => isFalse (by simp)
    | Except.error _, Except.ok _ => isFalse (by simp)

/-- Condition statuses (`operatorapi.ConditionTrue` and friends). -/
inductive ConditionStatus where
  | conditionTrue
  | conditionFalse
  | conditionUnknown
  deriving DecidableEq

/-- One named condition: its status and message. -/
structure OperatorCondition where
  status : ConditionStatus
  message : String
  deriving DecidableEq

/-- The four named conditions of the managed object. -/
structure ConditionSet where
  Available : OperatorCondition
  Progressing : OperatorCondition
  Failing : OperatorCondition
  Removed : OperatorCondition
  deriving DecidableEq

/-- `operatorapi.ManagementState`. -/
inductive ManagementState where
  | Managed
  | Unmanaged
  | Removed
  | Force
  deriving DecidableEq

/-- The managed object's spec. -/
structure ImageRegistrySpec where
  ManagementState : ManagementState
  Storage : ImageRegistryConfigStorage
  deriving DecidableEq

/-- The managed object's status. -/
structure ImageRegistryStatus where
  Conditions : ConditionSet
  ObservedGeneration : Int
  InternalRegistryHostname : String
  deriving DecidableEq

/-- The managed object (the `ImageRegistry` custom resource).  Of its
metadata only the parts the controller reads are kept: name, generation,
deletion timestamp, finalizer list and the checksum annotation. -/
structure ImageRegistry where
  Name : String
  Generation : Int
  DeletionTimestamp : Option Int
  Finalizers : List String
  ChecksumAnnotation : Option String
  Spec : ImageRegistrySpec
  Status : ImageRegistryStatus
  deriving DecidableEq

/-! ## Checksum (`resource.Checksum`, modelled) -/

/-- Canonical text of a condition status. -/
def ConditionStatus.encode : ConditionStatus → String
  | ConditionStatus.conditionTrue => "True"
  | ConditionStatus.conditionFalse => "False"
  | ConditionStatus.conditionUnknown => "Unknown"

/-- Canonical text of a condition. -/
def encodeCondition (c : OperatorCondition) : String :=
  c.status.encode ++ ":" ++ c.message

/-- Canonical text of the condition set, in a fixed field order. -/
def encodeConditions (cs : ConditionSet) : String :=
  encodeCondition cs.Available ++ ";" ++ encodeCondition cs.Progressing ++ ";"
    ++ encodeCondition cs.Failing ++ ";" ++ encodeCondition cs.Removed

/-- Canonical text of a storage variant given an encoder for its payload. -/
def encodeOptVariant {α : Type} (enc : α → String) : Option α → String
  | none => "nil"
  | some c => "set(" ++ enc c ++ ")"

/-- Canonical text of the storage configuration union, in a fixed field
order. -/
def encodeStorage (cfg : ImageRegistryConfigStorage) : String :=
  encodeOptVariant (fun _ => "") cfg.EmptyDir ++ ","
    ++ encodeOptVariant (fun c => c.bucket ++ "/" ++ c.region) cfg.S3 ++ ","
    ++ encodeOptVariant (fun c => c.container) cfg.Swift ++ ","
    ++ encodeOptVariant (fun c => c.bucket) cfg.GCS ++ ","
    ++ encodeOptVariant (fun c => c.claim) cfg.PVC ++ ","
    ++ encodeOptVariant (fun c => c.container) cfg.Azure

/-- Canonical text of a management state. -/
def ManagementState.encode : ManagementState → String
  | ManagementState.Managed => "Managed"
  | ManagementState.Unmanaged => "Unmanaged"
  | ManagementState.Removed => "Removed"
  | ManagementState.Force => "Force"

/-- Canonical text of the spec. -/
def encodeSpec (spec : ImageRegistrySpec) : String :=
  spec.ManagementState.encode ++ "|" ++ encodeStorage spec.Storage

/-- Canonical text of the status. -/
def encodeStatus (status : ImageRegistryStatus) : String :=
  encodeConditions status.Conditions ++ "|" ++ toString status.ObservedGeneration
    ++ "|" ++ status.InternalRegistryHostname

/-- Modelled from the spec: `resource.Checksum` is not under src; per §4.4 it
is a deterministic fingerprint of the managed object's `Spec` and `Status`
substructures in canonical field order.  Modelled as a canonical string
encoding (injectivity is not needed by any claim, determinism is). -/
def Checksum (spec : ImageRegistrySpec) (status : ImageRegistryStatus) : String :=
  "chk:" ++ encodeSpec spec ++ "||" ++ encodeStatus status

/-- Modelled from the spec: `addImageRegistryChecksum` is not under src; per
§3/§4.4 it records the fingerprint of the about-to-be-written spec+status in
the object's checksum annotation. -/
def addImageRegistryChecksum (cr : ImageRegistry) : ImageRegistry :=
  { cr with ChecksumAnnotation := some (Checksum cr.Spec cr.Status) }

/-! ## Condition helpers (modelled) -/

/-- Modelled from the spec: the `conditionAvailable`-style helpers are not
under src; per §3/§4.2 each sets the named condition's status and message and
marks the change flag when the condition actually changed. -/
def setConditionValue (old : OperatorCondition) (s : ConditionStatus)
    (m : String) (changed : Bool) : OperatorCondition × Bool :=
  let new : OperatorCondition := ⟨s, m⟩
  (new, changed || (old != new))

/-- Helper setting the Available condition on the object. -/
def conditionAvailable (cr : ImageRegistry) (s : ConditionStatus) (m : String)
    (changed : Bool) : ImageRegistry × Bool :=
  let r := setConditionValue cr.Status.Conditions.Available s m changed
  ({ cr with Status := { cr.Status with
      Conditions := { cr.Status.Conditions with Available := r.1 } } }, r.2)

/-- Helper setting the Progressing condition on the object. -/
def conditionProgressing (cr : ImageRegistry) (s : ConditionStatus) (m : String)
    (changed : Bool) : ImageRegistry × Bool :=
  let r := setConditionValue cr.Status.Conditions.Progressing s m changed
  ({ cr with Status := { cr.Status with
      Conditions := { cr.Status.Conditions with Progressing := r.1 } } }, r.2)

/-- Helper setting the Failing condition on the object. -/
def conditionFailing (cr : ImageRegistry) (s : ConditionStatus) (m : String)
    (changed : Bool) : ImageRegistry × Bool :=
  let r := setConditionValue cr.Status.Conditions.Failing s m changed
  ({ cr with Status := { cr.Status with
      Conditions := { cr.Status.Conditions with Failing := r.1 } } }, r.2)

/-- Helper setting the Removed condition on the object. -/
def conditionRemoved (cr : ImageRegistry) (s : ConditionStatus) (m : String)
    (changed : Bool) : ImageRegistry × Bool :=
  let r := setConditionValue cr.Status.Conditions.Removed s m changed
  ({ cr with Status := { cr.Status with
      Conditions := { cr.Status.Conditions with Removed := r.1 } } }, r.2)

/-- The controller's finalizer token (modelled name; only identity
matters). -/
def operatorFinalizerToken : String := "imageregistry.operator.openshift.io"

/-- Modelled from the spec: `appendFinalizer` is not under src; per §3/§4.3
it adds the controller's finalizer token to the object if absent, marking the
object modified. -/
def appendFinalizer (cr : ImageRegistry) (modified : Bool) : ImageRegistry × Bool :=
  if cr.Finalizers.contains operatorFinalizerToken then (cr, modified)
  else ({ cr with Finalizers := cr.Finalizers ++ [operatorFinalizerToken] }, true)

/-! ## Error classification (`permanentError`, `createOrUpdateResources`) -/

/-- A Go error as seen by the apply path: either wrapped in the
`permanentError` marker type or an ordinary error. -/
inductive OpError where
  | permanent (msg : String)
  | normal (msg : String)
  deriving DecidableEq

/-- `Error()`: the text of the error (`permanentError.Error` forwards the
wrapped error's text). -/
def OpError.message : OpError → String
  | OpError.permanent m => m
  | OpError.normal m => m

/-- Whether the error is of the `permanentError` marker type. -/
def OpError.isPermanent : OpError → Bool
  | OpError.permanent _ => true
  | OpError.normal _ => false

/-- Observable steps of a reconcile pass, recorded as a trace. -/
inductive SyncAction where
  | bootstrapped
  | finalized
  | removedResources
  | clusterStatusFailingSet
  | generatorApplied
  | statusWrite (cr : ImageRegistry)
  deriving DecidableEq

/-- Results of `client.ImageRegistries().Get`. -/
inductive CrGetResult where
  | notFound
  | errOther (msg : String)
  | foundNil
  | found (cr : ImageRegistry)

/-- The deployment as read through the deployments watcher; only its rollout
state feeds the derived conditions. -/
structure Deployment where
  rolloutComplete : Bool
  deriving DecidableEq

/-- Results of the deployments watcher `Get`. -/
inductive DeployGetResult where
  | notFound
  | errOther (msg : String)
  | found (d : Deployment)

/-- The service as read through the services watcher: the fields used to
build the internal registry hostname. -/
structure Service where
  Name : String
  Namespace : String
  Port : Int
  deriving DecidableEq

/-- Results of the services watcher `Get`. -/
inductive ServiceGetResult where
  | notFound
  | errOther (msg : String)
  | found (svc : Service)

/-- The collaborator outcomes one reconcile pass observes: results of the
cluster client, the watchers, `Bootstrap`, `finalizeResources`,
`RemoveResources`, `verifyResource`, `storage.NewDriver`,
`Driver.ValidateConfiguration` and `generator.Apply` (with the mutation
flags the latter two drive through the `modified` out-parameter). -/
structure SyncEnv where
  clientErr : Option String
  getResult : CrGetResult
  bootstrapResult : Option String
  finalizeResult : Option String
  removeResult : Option String
  verifyResult : Option String
  newDriverResult : Except StorageError Driver
  validateResult : Option String
  validateModified : Bool
  applyModified : Bool
  applyResult : Option String

/-- Outcome of the apply path: the (locally mutated) object, the mutation
flag, the returned error and the trace of steps reached. -/
structure ApplyOutcome where
  cr : ImageRegistry
  modified : Bool
  err : Option OpError
  trace : List SyncAction

/-- `createOrUpdateResources` (`controller.go`): appends the finalizer,
verifies the resource, resolves the storage driver (only the
`ErrStorageNotConfigured` sentinel is wrapped as permanent; every other
driver-resolution failure is wrapped as an ordinary error), validates the
configuration (failure wrapped as permanent), then applies the manifests
(failure returned as-is). -/
def createOrUpdateResources (env : SyncEnv) (cr : ImageRegistry)
    (modified : Bool) : ApplyOutcome :=
  let r := appendFinalizer cr modified
  let cr := r.1
  let modified := r.2
  match env.verifyResult with
  | some e =>
      ⟨cr, modified, some (OpError.normal ("unable to complete resource: " ++ e)), []⟩
  | none =>
    match env.newDriverResult with
    | Except.error StorageError.errStorageNotConfigured =>
        ⟨cr, modified, some (OpError.permanent "storage backend not configured"), []⟩
    | Except.error e =>
        ⟨cr, modified,
          some (OpError.normal ("unable to create storage driver: " ++ e.message)), []⟩
    | Except.ok _ =>
      match env.validateResult with
      | some e =>
          ⟨cr, modified, some (OpError.permanent ("invalid configuration: " ++ e)), []⟩
      | none =>
        let modified := modified || env.validateModified
        let modified := modified || env.applyModified
        match env.applyResult with
        | some e => ⟨cr, modified, some (OpError.normal e), [SyncAction.generatorApplied]⟩
        | none => ⟨cr, modified, none, [SyncAction.generatorApplied]⟩

/-- `CreateOrUpdateResources` (`controller.go`): no-op unless the management
state is Managed. -/
def CreateOrUpdateResources (env : SyncEnv) (cr : ImageRegistry)
    (modified : Bool) : ApplyOutcome :=
  if cr.Spec.ManagementState = ManagementState.Managed then
    createOrUpdateResources env cr modified
  else ⟨cr, modified, none, []⟩

/-! ## The reconcile pass (`sync`) -/

/-- The management-state switch of `sync`.  Removed: run `RemoveResources`;
on failure report the cluster operator as Failing and set Progressing=true
with the error text (the object's own Failing condition is not touched); on
success set Removed=true, Available=false, Progressing=false, Failing=false.
Managed: clear the Removed condition and run `CreateOrUpdateResources`,
capturing its result as the pass's apply error.  Unmanaged and unknown
states: no-op. -/
def syncManagementBranch (env : SyncEnv) (cr : ImageRegistry) : ApplyOutcome :=
  match cr.Spec.ManagementState with
  | ManagementState.Removed =>
    match env.removeResult with
    | some e =>
      let r := conditionProgressing cr ConditionStatus.conditionTrue
        ("unable to remove objects: " ++ e) false
      ⟨r.1, r.2, none, [SyncAction.removedResources, SyncAction.clusterStatusFailingSet]⟩
    | none =>
      let r := conditionRemoved cr ConditionStatus.conditionTrue "" false
      let r := conditionAvailable r.1 ConditionStatus.conditionFalse "" r.2
      let r := conditionProgressing r.1 ConditionStatus.conditionFalse "" r.2
      let r := conditionFailing r.1 ConditionStatus.conditionFalse "" r.2
      ⟨r.1, r.2, none, [SyncAction.removedResources]⟩
  | ManagementState.Managed =>
    let r := conditionRemoved cr ConditionStatus.conditionFalse "" false
    CreateOrUpdateResources env r.1 r.2
  | ManagementState.Unmanaged => ⟨cr, false, none, []⟩
  | ManagementState.Force => ⟨cr, false, none, []⟩

/-- Modelled from the spec: `syncStatus` is not under src; per §4.2 it
derives the Available and Progressing condition content from the deployment
rollout state and surfaces the apply error as the Failing condition, through
the change-tracking condition helpers.  It derives these rollout conditions
only for an object in the Managed state: §4.2's Removed bullet fixes the
conditions of a removed object to the values the management-state branch
sets (which derived rollout content must therefore not overwrite), and §3
requires reconcile passes to be idempotent.  It is a pure function of the
management state, the deployment state and the apply error. -/
def syncStatus (cr : ImageRegistry) (deploy : Option Deployment)
    (applyError : Option OpError) (changed : Bool) : ImageRegistry × Bool :=
  if cr.Spec.ManagementState ≠ ManagementState.Managed then (cr, changed) else
  let availTarget : OperatorCondition :=
    match deploy with
    | none => ⟨ConditionStatus.conditionFalse, "deployment does not exist"⟩
    | some d =>
      if d.rolloutComplete then ⟨ConditionStatus.conditionTrue, "deployment has available replicas"⟩
      else ⟨ConditionStatus.conditionFalse, "deployment rollout is in progress"⟩
  let progTarget : OperatorCondition :=
    match applyError with
    | some e => ⟨ConditionStatus.conditionTrue, e.message⟩
    | none =>
      match deploy with
      | none => ⟨ConditionStatus.conditionTrue, "deployment does not exist"⟩
      | some d =>
        if d.rolloutComplete then ⟨ConditionStatus.conditionFalse, ""⟩
        else ⟨ConditionStatus.conditionTrue, "deployment rollout is in progress"⟩
  let failTarget : OperatorCondition :=
    match applyError with
    | some e => ⟨ConditionStatus.conditionTrue, e.message⟩
    | none => ⟨ConditionStatus.conditionFalse, ""⟩
  let r := conditionAvailable cr availTarget.status availTarget.message changed
  let r := conditionProgressing r.1 progTarget.status progTarget.message r.2
  let r := conditionFailing r.1 failTarget.status failTarget.message r.2
  r

/-- The part of the reconcile pass between fetching the object and the
status-write gate: management-state branch, deployment read, internal
hostname derivation (only when the apply succeeded), derived status. -/
inductive PassResult where
  | earlyErr (msg : String) (trace : List SyncAction)
  | completed (cr : ImageRegistry) (statusChanged : Bool)
      (applyError : Option OpError) (trace : List SyncAction)

/-- The watcher reads of the pass. -/
structure WatchEnv where
  deployResult : DeployGetResult
  svcResult : ServiceGetResult

/-- `runPass`: the body of `sync` for a fetched, not-being-deleted object. -/
def runPass (env : SyncEnv) (watch : WatchEnv) (cr : ImageRegistry) : PassResult :=
  let b := syncManagementBranch env cr
  match watch.deployResult with
  | DeployGetResult.errOther e =>
      PassResult.earlyErr ("failed to get deployment: " ++ e) b.trace
  | dres =>
    let deploy : Option Deployment :=
      match dres with
      | DeployGetResult.found d => some d
      | _ => none
    let step : Except String (ImageRegistry × Bool) :=
      match b.err with
      | some _ => Except.ok (b.cr, b.modified)
      | none =>
        match watch.svcResult with
        | ServiceGetResult.errOther e => Except.error ("failed to get service " ++ e)
        | ServiceGetResult.notFound => Except.ok (b.cr, b.modified)
        | ServiceGetResult.found svc =>
          let svcHostname := svc.Name ++ "." ++ svc.Namespace
            ++ ".svc.cluster.local:" ++ toString svc.Port
          if b.cr.Status.InternalRegistryHostname != svcHostname then
            Except.ok ({ b.cr with Status :=
              { b.cr.Status with InternalRegistryHostname := svcHostname } }, true)
          else Except.ok (b.cr, b.modified)
    match step with
    | Except.error e => PassResult.earlyErr e b.trace
    | Except.ok (cr2, statusChanged) =>
      let r := syncStatus cr2 deploy b.err statusChanged
      PassResult.completed r.1 r.2 b.err b.trace

/-- The mutation applied just before the status write: set
`ObservedGeneration` from the generation and record the fresh checksum
annotation. -/
def writePrep (cr : ImageRegistry) : ImageRegistry :=
  addImageRegistryChecksum
    { cr with Status := { cr.Status with ObservedGeneration := cr.Generation } }

/-- The result of one reconcile pass: the error `sync` returns and the trace
of steps it performed. -/
structure SyncResult where
  err : Option String
  trace : List SyncAction

/-- `sync` (`controller.go`): fetch the object (NotFound is ignored with a
nil return; a nil object re-runs `Bootstrap`); a set deletion timestamp short
circuits into `finalizeResources` before the management-state switch;
otherwise run the pass and, only when the accumulated change flag is set,
stamp the observed generation and checksum and write the status back (a
write conflict is swallowed; `sync` returns nil either way). -/
def sync (env : SyncEnv) (watch : WatchEnv) : SyncResult :=
  match env.clientErr with
  | some e => ⟨some e, []⟩
  | none =>
    match env.getResult with
    | CrGetResult.errOther e => ⟨some ("failed to get custom resource: " ++ e), []⟩
    | CrGetResult.notFound => ⟨none, []⟩
    | CrGetResult.foundNil => ⟨env.bootstrapResult, [SyncAction.bootstrapped]⟩
    | CrGetResult.found cr =>
      if cr.DeletionTimestamp.isSome then ⟨env.finalizeResult, [SyncAction.finalized]⟩
      else
        match runPass env watch cr with
        | PassResult.earlyErr e tr => ⟨some e, tr⟩
        | PassResult.completed cr2 statusChanged _ tr =>
          if statusChanged then ⟨none, tr ++ [SyncAction.statusWrite (writePrep cr2)]⟩
          else ⟨none, tr⟩

/-! ## Event handling (`Handle`) and the work loop (`eventProcessor`) -/

/-- The single constant work-queue key. -/
def WORKQUEUE_KEY : String := "changes"

/-- `regopapi.SchemeGroupVersion.String()` (modelled constant; only identity
matters for the owner-reference comparison). -/
def schemeGroupVersionString : String := "imageregistry.operator.openshift.io/v1alpha1"

/-- An object delivered to `Handle`, decoded once at the boundary: the
managed object itself, some other object with its controller owner
reference, an object without a controlling owner, or a value that is neither
an object nor a recoverable tombstone. -/
inductive WatchObject where
  | imageRegistry (cr : ImageRegistry)
  | ownedObject (ownerKind ownerAPIVersion : String)
  | objectWithoutOwner
  | undecodable

/-- `Handle` (`controller.go`): returns whether the constant key was added to
the work queue.  For the managed object, the fresh fingerprint of spec+status
is compared to the checksum annotation and an equal fingerprint drops the
event; other objects enqueue only when controlled by the managed object. -/
def Handle (_action : String) (o : WatchObject) : Bool :=
  match o with
  | WatchObject.undecodable => false
  | WatchObject.imageRegistry cr =>
    let dgst := Checksum cr.Spec cr.Status
    match cr.ChecksumAnnotation with
    | some curdgst => if dgst == curdgst then false else true
    | none => true
  | WatchObject.ownedObject k v =>
    if k == "ImageRegistry" && v == schemeGroupVersionString then true else false
  | WatchObject.objectWithoutOwner => false

/-- Work-queue operations issued by one iteration of `eventProcessor`. -/
inductive QueueOp where
  | done
  | forget
  | addRateLimited (key : String)
  deriving DecidableEq

/-- One iteration of the `eventProcessor` loop body after `Get` returned an
item: a non-string item is forgotten; a failed `sync` re-adds the constant
key rate limited (and does not forget); a successful `sync` forgets the
item.  `Done` is deferred, so it is issued last in every path.  Returns the
queue operations in order and the error the closure reports. -/
def processWorkItem (objIsString : Bool) (syncErr : Option String) :
    List QueueOp × Option String :=
  if !objIsString then ([QueueOp.forget, QueueOp.done], none)
  else
    match syncErr with
    | some e =>
        ([QueueOp.addRateLimited WORKQUEUE_KEY, QueueOp.done],
          some ("unable to sync: " ++ e ++ ", requeuing"))
    | none => ([QueueOp.forget, QueueOp.done], none)

/-! ## Concrete fixtures -/

/-- A condition set with Available true and everything else false. -/
def steadyConditions : ConditionSet :=
  ⟨⟨ConditionStatus.conditionTrue, "deployment has available replicas"⟩,
    ⟨ConditionStatus.conditionFalse, ""⟩,
    ⟨ConditionStatus.conditionFalse, ""⟩,
    ⟨ConditionStatus.conditionFalse, ""⟩⟩

/-- A managed object in steady state, used as concrete input. -/
def cr0 : ImageRegistry :=
  ⟨"image-registry", 3, none, [operatorFinalizerToken], none,
    ⟨ManagementState.Managed, cfgOnlyS3⟩,
    ⟨steadyConditions, 3, "image-registry.openshift-image-registry.svc.cluster.local:5000"⟩⟩

/-- Watcher reads with a healthy deployment and the registry service. -/
def watchBoth : WatchEnv :=
  ⟨DeployGetResult.found ⟨true⟩,
    ServiceGetResult.found ⟨"image-registry", "openshift-image-registry", 5000⟩⟩

/-- Watcher reads where neither the deployment nor the service exists. -/
def watchNone : WatchEnv := ⟨DeployGetResult.notFound, ServiceGetResult.notFound⟩

/-- A collaborator environment where every step succeeds and mutates
nothing, fetching the given object. -/
def benignEnv (g : CrGetResult) : SyncEnv :=
  ⟨none, g, none, none, none, none,
    Except.ok (Driver.s3 ⟨"bucket", "region"⟩), none, false, false, none⟩

/-- Replace the fetched object of an environment. -/
def withFound (env : SyncEnv) (cr : ImageRegistry) : SyncEnv :=
  { env with getResult := CrGetResult.found cr }

/-- The object a trace action wrote back, if it is a status write. -/
def SyncAction.writtenObject : SyncAction → Option ImageRegistry
  | SyncAction.statusWrite x => some x
  | _ => none

/-- The objects written back by a pass, in order. -/
def writesOf (r : SyncResult) : List ImageRegistry :=
  r.trace.filterMap SyncAction.writtenObject

/-- Whether a deployment read failed with a non-NotFound error. -/
def DeployGetResult.isErr : DeployGetResult → Bool
  | DeployGetResult.errOther _ => true
  | _ => false

/-- Whether a service read failed with a non-NotFound error. -/
def ServiceGetResult.isErr : ServiceGetResult → Bool
  | ServiceGetResult.errOther _ => true
  | _ => false

/-- The apply error recorded by a completed pass. -/
def passApplyError : PassResult → Option OpError
  | PassResult.completed _ _ e _ => e
  | PassResult.earlyErr _ _ => none

/-! ## C6: self-echo suppression in `Handle` -/

/-- C6: a watch event for the managed object whose computed fingerprint of
spec+status equals the stored checksum annotation is dropped without
enqueueing work. -/
theorem c6_self_echo_suppressed (action : String) (cr : ImageRegistry) (d : String)
    (h1 : cr.ChecksumAnnotation = some d)
    (h2 : Checksum cr.Spec cr.Status = d) :
    Handle action (WatchObject.imageRegistry cr) = false := by
  simp [Handle, h1, h2]

/-- An echo of the steady object: its annotation holds its own
fingerprint. -/
def crEcho : ImageRegistry :=
  { cr0 with ChecksumAnnotation := some (Checksum cr0.Spec cr0.Status) }

/-- Witness for C6 at a concrete echoed object. -/
theorem c6_self_echo_suppressed_witness :
    crEcho.ChecksumAnnotation = some (Checksum cr0.Spec cr0.Status) ∧
      Checksum crEcho.Spec crEcho.Status = Checksum cr0.Spec cr0.Status ∧
      Handle "update" (WatchObject.imageRegistry crEcho) = false :=
  ⟨rfl, rfl, c6_self_echo_suppressed "update" crEcho (Checksum cr0.Spec cr0.Status) rfl rfl⟩

/-! ## C7: deletion is checked before the management-state switch -/

/-- C7: with a deletion timestamp set, `sync` runs the finalization path and
nothing else — no management-state branch action, no status write —
whatever the management state is. -/
theorem c7_deletion_before_management_switch (env : SyncEnv) (watch : WatchEnv)
    (cr : ImageRegistry) (h1 : env.clientErr = none)
    (h2 : env.getResult = CrGetResult.found cr)
    (h3 : cr.DeletionTimestamp.isSome = true) :
    sync env watch = ⟨env.finalizeResult, [SyncAction.finalized]⟩ := by
  simp [sync, h1, h2, h3]

/-- The steady object marked for deletion, still in the Managed state. -/
def crDeleting : ImageRegistry := { cr0 with DeletionTimestamp := some 42 }

/-- Witness for C7 at a concrete deleting object in the Managed state. -/
theorem c7_deletion_before_management_switch_witness :
    (benignEnv (CrGetResult.found crDeleting)).clientErr = none ∧
      (benignEnv (CrGetResult.found crDeleting)).getResult = CrGetResult.found crDeleting ∧
      crDeleting.DeletionTimestamp.isSome = true ∧
      sync (benignEnv (CrGetResult.found crDeleting)) watchBoth =
        ⟨(benignEnv (CrGetResult.found crDeleting)).finalizeResult, [SyncAction.finalized]⟩ :=
  ⟨rfl, rfl, rfl,
    c7_deletion_before_management_switch (benignEnv (CrGetResult.found crDeleting))
      watchBoth crDeleting rfl rfl rfl⟩

/-! ## C10: NotFound fetch is a successful no-op pass -/

/-- C10: when the fetch reports NotFound, `sync` returns nil with an empty
trace (no apply, no teardown, no status write) and the work item is
forgotten without being re-added. -/
theorem c10_not_found_ignored (env : SyncEnv) (watch : WatchEnv)
    (h1 : env.clientErr = none) (h2 : env.getResult = CrGetResult.notFound) :
    sync env watch = ⟨none, []⟩ ∧
      processWorkItem true (sync env watch).err = ([QueueOp.forget, QueueOp.done], none) := by
  constructor
  · simp [sync, h1, h2]
  · simp [sync, h1, h2, processWorkItem]

/-- Witness for C10 at a concrete environment. -/
theorem c10_not_found_ignored_witness :
    (benignEnv CrGetResult.notFound).clientErr = none ∧
      (benignEnv CrGetResult.notFound).getResult = CrGetResult.notFound ∧
      (sync (benignEnv CrGetResult.notFound) watchBoth = ⟨none, []⟩ ∧
        processWorkItem true (sync (benignEnv CrGetResult.notFound) watchBoth).err =
          ([QueueOp.forget, QueueOp.done], none)) :=
  ⟨rfl, rfl, c10_not_found_ignored (benignEnv CrGetResult.notFound) watchBoth rfl rfl⟩

/-! ## C4: error classification of the apply path -/

/-- An environment whose driver resolution fails with the
ambiguous-configuration error of the S3+GCS configuration. -/
def envAmbiguous : SyncEnv :=
  { benignEnv (CrGetResult.found cr0) with
      newDriverResult := newDriver pvcNewDriver cfgS3GCS }

/-- Counterexample to C4 as stated: for a configuration with both S3 and GCS
populated, driver resolution fails with the ambiguous-configuration error
naming both backends, yet `createOrUpdateResources` returns it wrapped as an
ordinary (non-permanent) error, not as `permanentError`. -/
theorem c4_counterexample_ambiguous_not_permanent :
    newDriver pvcNewDriver cfgS3GCS =
      Except.error (StorageError.ambiguousConfiguration 2 ["S3", "GCS"]) ∧
    (createOrUpdateResources envAmbiguous cr0 false).err =
      some (OpError.normal ("unable to create storage driver: "
        ++ (StorageError.ambiguousConfiguration 2 ["S3", "GCS"]).message)) ∧
    Option.map OpError.isPermanent (createOrUpdateResources envAmbiguous cr0 false).err =
      some false :=
  ⟨rfl, rfl, rfl⟩

/-- C4 as amended: a failure of `createOrUpdateResources` is classified
permanent exactly when it is the `ErrStorageNotConfigured` sentinel from
driver resolution (after the resource completed verification) or a
configuration-validation failure; every other failure — including the
ambiguous-configuration error, resource-completion failures and apply
failures — is returned as an ordinary, non-permanent error. -/
theorem c4_amended_permanent_classification (env : SyncEnv) (cr : ImageRegistry)
    (m : Bool) (e : OpError)
    (h : (createOrUpdateResources env cr m).err = some e) :
    e.isPermanent = true ↔
      (env.verifyResult = none ∧
        (env.newDriverResult = Except.error StorageError.errStorageNotConfigured ∨
          (resolutionSucceeded env.newDriverResult = true ∧ env.validateResult.isSome = true))) := by
  rcases env with ⟨ce, g, b, f, rm, vr, nd, vd, vm, am, ar⟩
  dsimp at h ⊢
  cases vr with
  | some v =>
    simp [createOrUpdateResources] at h
    simp [← h, OpError.isPermanent]
  | none =>
    cases nd with
    | error se =>
      cases se <;> simp [createOrUpdateResources] at h <;>
        simp [← h, OpError.isPermanent, resolutionSucceeded]
    | ok d =>
      cases vd with
      | some v =>
        simp [createOrUpdateResources] at h
        simp [← h, OpError.isPermanent, resolutionSucceeded]
      | none =>
        cases ar with
        | some a =>
          simp [createOrUpdateResources] at h
          simp [← h, OpError.isPermanent, resolutionSucceeded]
        | none => simp [createOrUpdateResources] at h

/-- An environment whose driver resolution fails with the
`ErrStorageNotConfigured` sentinel. -/
def envNotConfigured : SyncEnv :=
  { benignEnv (CrGetResult.found cr0) with
      newDriverResult := Except.error StorageError.errStorageNotConfigured }

/-- Witness for the amended C4 at the not-configured environment. -/
theorem c4_amended_permanent_classification_witness :
    (createOrUpdateResources envNotConfigured cr0 false).err =
      some (OpError.permanent "storage backend not configured") ∧
    ((OpError.permanent "storage backend not configured").isPermanent = true ↔
      (envNotConfigured.verifyResult = none ∧
        (envNotConfigured.newDriverResult =
            Except.error StorageError.errStorageNotConfigured ∨
          (resolutionSucceeded envNotConfigured.newDriverResult = true ∧
            envNotConfigured.validateResult.isSome = true)))) :=
  ⟨rfl, c4_amended_permanent_classification envNotConfigured cr0 false
    (OpError.permanent "storage backend not configured") rfl⟩

/-! ## C8: conditions set by the Removed branch -/

/-- A removed-state object whose Failing and Progressing conditions are
false. -/
def crRemoved : ImageRegistry :=
  { cr0 with
      Spec := ⟨ManagementState.Removed, cfgOnlyS3⟩
      Status := ⟨⟨⟨ConditionStatus.conditionFalse, ""⟩,
        ⟨ConditionStatus.conditionFalse, ""⟩,
        ⟨ConditionStatus.conditionFalse, ""⟩,
        ⟨ConditionStatus.conditionFalse, ""⟩⟩, 3, "h"⟩ }

/-- An environment in which teardown fails. -/
def envRemoveFail : SyncEnv :=
  { benignEnv (CrGetResult.found crRemoved) with removeResult := some "boom" }

/-- Counterexample to C8 as stated: when teardown fails, the branch leaves
the object's Failing condition untouched (here false) — only Progressing is
set to true with the error text, so "Failing=true is set" is false of the
code. -/
theorem c8_counterexample_failing_not_set :
    (syncManagementBranch envRemoveFail crRemoved).cr.Status.Conditions.Failing =
      ⟨ConditionStatus.conditionFalse, ""⟩ ∧
    (syncManagementBranch envRemoveFail crRemoved).cr.Status.Conditions.Progressing =
      ⟨ConditionStatus.conditionTrue, "unable to remove objects: boom"⟩ :=
  ⟨rfl, rfl⟩

/-- C8 as amended: in the Removed state, a successful teardown sets
Removed=true, Available=false, Progressing=false and Failing=false; a failed
teardown sets Progressing=true with the error text and reports Failing at
the cluster-operator status handler, leaving the object's own Failing
condition unchanged. -/
theorem c8_amended_removed_branch_conditions (env : SyncEnv) (cr : ImageRegistry)
    (h : cr.Spec.ManagementState = ManagementState.Removed) :
    (∀ e, env.removeResult = some e →
      (syncManagementBranch env cr).cr.Status.Conditions.Progressing =
        ⟨ConditionStatus.conditionTrue, "unable to remove objects: " ++ e⟩ ∧
      (syncManagementBranch env cr).cr.Status.Conditions.Failing =
        cr.Status.Conditions.Failing ∧
      SyncAction.clusterStatusFailingSet ∈ (syncManagementBranch env cr).trace) ∧
    (env.removeResult = none →
      (syncManagementBranch env cr).cr.Status.Conditions.Removed =
        ⟨ConditionStatus.conditionTrue, ""⟩ ∧
      (syncManagementBranch env cr).cr.Status.Conditions.Available =
        ⟨ConditionStatus.conditionFalse, ""⟩ ∧
      (syncManagementBranch env cr).cr.Status.Conditions.Progressing =
        ⟨ConditionStatus.conditionFalse, ""⟩ ∧
      (syncManagementBranch env cr).cr.Status.Conditions.Failing =
        ⟨ConditionStatus.conditionFalse, ""⟩) := by
  constructor
  · intro e he
    simp [syncManagementBranch, h, he, conditionProgressing, setConditionValue]
  · intro he
    simp [syncManagementBranch, h, he, conditionRemoved, conditionAvailable,
      conditionProgressing, conditionFailing, setConditionValue]

/-- An environment in which teardown succeeds for the removed object. -/
def envRemoveOk : SyncEnv := benignEnv (CrGetResult.found crRemoved)

/-- Witness for the amended C8 at a concrete removed object. -/
theorem c8_amended_removed_branch_conditions_witness :
    crRemoved.Spec.ManagementState = ManagementState.Removed ∧
      ((∀ e, envRemoveOk.removeResult = some e →
        (syncManagementBranch envRemoveOk crRemoved).cr.Status.Conditions.Progressing =
          ⟨ConditionStatus.conditionTrue, "unable to remove objects: " ++ e⟩ ∧
        (syncManagementBranch envRemoveOk crRemoved).cr.Status.Conditions.Failing =
          crRemoved.Status.Conditions.Failing ∧
        SyncAction.clusterStatusFailingSet ∈ (syncManagementBranch envRemoveOk crRemoved).trace) ∧
      (envRemoveOk.removeResult = none →
        (syncManagementBranch envRemoveOk crRemoved).cr.Status.Conditions.Removed =
          ⟨ConditionStatus.conditionTrue, ""⟩ ∧
        (syncManagementBranch envRemoveOk crRemoved).cr.Status.Conditions.Available =
          ⟨ConditionStatus.conditionFalse, ""⟩ ∧
        (syncManagementBranch envRemoveOk crRemoved).cr.Status.Conditions.Progressing =
          ⟨ConditionStatus.conditionFalse, ""⟩ ∧
        (syncManagementBranch envRemoveOk crRemoved).cr.Status.Conditions.Failing =
          ⟨ConditionStatus.conditionFalse, ""⟩)) :=
  ⟨rfl, c8_amended_removed_branch_conditions envRemoveOk crRemoved rfl⟩

/-! ## C9: requeue-on-failure, forget-on-success -/

/-- The error message of a pass that stopped early, if any. -/
def PassResult.earlyMsg : PassResult → Option String
  | PassResult.earlyErr e _ => some e
  | PassResult.completed _ _ _ _ => none

/-- A pass whose watcher reads do not fail never stops early: apply and
teardown failures are captured in `applyError`/conditions, not returned. -/
theorem runPass_no_early_error (env : SyncEnv) (watch : WatchEnv)
    (cr : ImageRegistry) (h4 : watch.deployResult.isErr = false)
    (h5 : watch.svcResult.isErr = false) :
    (runPass env watch cr).earlyMsg = none := by
  unfold runPass
  cases hw : watch.deployResult with
  | errOther e => simp [hw, DeployGetResult.isErr] at h4
  | notFound =>
    cases hb : (syncManagementBranch env cr).err with
    | some e => simp [hb, PassResult.earlyMsg]
    | none =>
      cases hs : watch.svcResult with
      | errOther e => simp [hs, ServiceGetResult.isErr] at h5
      | notFound => simp [hb, hs, PassResult.earlyMsg]
      | found svc =>
        simp only [hb, hs]
        split
        · rename_i heq
          split at heq <;> simp at heq
        · simp [PassResult.earlyMsg]
  | found d =>
    cases hb : (syncManagementBranch env cr).err with
    | some e => simp [hb, PassResult.earlyMsg]
    | none =>
      cases hs : watch.svcResult with
      | errOther e => simp [hs, ServiceGetResult.isErr] at h5
      | notFound => simp [hb, hs, PassResult.earlyMsg]
      | found svc =>
        simp only [hb, hs]
        split
        · rename_i heq
          split at heq <;> simp at heq
        · simp [PassResult.earlyMsg]

/-- C9 as amended: a pass over a fetched, not-being-deleted object whose
watcher reads succeed returns nil whatever the apply, teardown or validation
results are — such failures surface in conditions only, so the item is
forgotten; and the queue contract of `eventProcessor` is: a `sync` error
re-adds the constant key rate limited without forgetting, a nil `sync`
forgets the item resetting backoff. -/
theorem c9_amended_requeue_contract (env : SyncEnv) (watch : WatchEnv)
    (cr : ImageRegistry) (h1 : env.clientErr = none)
    (h2 : env.getResult = CrGetResult.found cr)
    (h3 : cr.DeletionTimestamp.isSome = false)
    (h4 : watch.deployResult.isErr = false)
    (h5 : watch.svcResult.isErr = false) :
    (sync env watch).err = none ∧
      (∀ e : String, processWorkItem true (some e) =
        ([QueueOp.addRateLimited WORKQUEUE_KEY, QueueOp.done],
          some ("unable to sync: " ++ e ++ ", requeuing"))) ∧
      processWorkItem true none = ([QueueOp.forget, QueueOp.done], none) := by
  refine ⟨?_, fun e => rfl, rfl⟩
  have hr := runPass_no_early_error env watch cr h4 h5
  cases hrp : runPass env watch cr with
  | earlyErr e tr => rw [hrp] at hr; simp [PassResult.earlyMsg] at hr
  | completed cr2 sc ae tr => cases sc <;> simp [sync, h1, h2, h3, hrp]

/-- An environment whose manifest application fails with an ordinary
(transient) error. -/
def envApplyFail : SyncEnv :=
  { benignEnv (CrGetResult.found cr0) with applyResult := some "apply failed: conflict" }

/-- Counterexample to C9 as stated: a transient apply failure does not cause
re-enqueueing — the pass records the failure as its apply error yet `sync`
returns nil, so the processor Forgets the item instead of re-adding it. -/
theorem c9_counterexample_apply_failure_forgotten :
    passApplyError (runPass envApplyFail watchBoth cr0) =
      some (OpError.normal "apply failed: conflict") ∧
    (sync envApplyFail watchBoth).err = none ∧
    (processWorkItem true (sync envApplyFail watchBoth).err).1 =
      [QueueOp.forget, QueueOp.done] :=
  ⟨rfl, rfl, rfl⟩

/-- Witness for the amended C9 at the apply-failure environment. -/
theorem c9_amended_requeue_contract_witness :
    envApplyFail.clientErr = none ∧
      envApplyFail.getResult = CrGetResult.found cr0 ∧
      cr0.DeletionTimestamp.isSome = false ∧
      watchBoth.deployResult.isErr = false ∧
      watchBoth.svcResult.isErr = false ∧
      ((sync envApplyFail watchBoth).err = none ∧
        (∀ e : String, processWorkItem true (some e) =
          ([QueueOp.addRateLimited WORKQUEUE_KEY, QueueOp.done],
            some ("unable to sync: " ++ e ++ ", requeuing"))) ∧
        processWorkItem true none = ([QueueOp.forget, QueueOp.done], none)) :=
  ⟨rfl, rfl, rfl, rfl, rfl,
    c9_amended_requeue_contract envApplyFail watchBoth cr0 rfl rfl rfl rfl rfl⟩

/-! ## C5: the status-write gate -/

/-- The fingerprints of the objects written back by a pass. -/
def writtenChecksums (r : SyncResult) : List String :=
  (writesOf r).map fun w => Checksum w.Spec w.Status

/-- Whether the pass wrote back an object whose fingerprint of the
about-to-be-written spec+status equals the given stored fingerprint. -/
def hasWriteWithStoredFingerprint (stored : Option String) (r : SyncResult) : Bool :=
  (writesOf r).any fun w => some (Checksum w.Spec w.Status) == stored

/-- The removed-state object carrying, as its stored checksum annotation,
exactly the fingerprint the pass is about to write: the controller wrote
this state before, and the status was since reverted externally without
touching the annotation. -/
def crC5 : ImageRegistry :=
  { crRemoved with
      ChecksumAnnotation :=
        (writtenChecksums (sync (benignEnv (CrGetResult.found crRemoved)) watchNone)).head? }

/-- Counterexample to C5 as stated: the write gate is the mutation flag, not
a fingerprint comparison — here the stored annotation equals the recomputed
fingerprint of the about-to-be-written object, yet the pass performs the
status write anyway. -/
theorem c5_counterexample_write_despite_equal_fingerprint :
    crC5.ChecksumAnnotation.isSome = true ∧
      hasWriteWithStoredFingerprint crC5.ChecksumAnnotation
        (sync (benignEnv (CrGetResult.found crC5)) watchNone) = true :=
  ⟨rfl, rfl⟩

/-- The trace carried by a pass result. -/
def PassResult.traceOf : PassResult → List SyncAction
  | PassResult.earlyErr _ tr => tr
  | PassResult.completed _ _ _ tr => tr

/-! Frame facts: what each object-updating helper leaves untouched, and what
it sets.  All are definitional. -/

@[simp] theorem conditionAvailable_Spec (cr : ImageRegistry) (s : ConditionStatus)
    (m : String) (ch : Bool) : ((conditionAvailable cr s m ch).1).Spec = cr.Spec := rfl

@[simp] theorem conditionProgressing_Spec (cr : ImageRegistry) (s : ConditionStatus)
    (m : String) (ch : Bool) : ((conditionProgressing cr s m ch).1).Spec = cr.Spec := rfl

@[simp] theorem conditionFailing_Spec (cr : ImageRegistry) (s : ConditionStatus)
    (m : String) (ch : Bool) : ((conditionFailing cr s m ch).1).Spec = cr.Spec := rfl

@[simp] theorem conditionRemoved_Spec (cr : ImageRegistry) (s : ConditionStatus)
    (m : String) (ch : Bool) : ((conditionRemoved cr s m ch).1).Spec = cr.Spec := rfl

@[simp] theorem conditionAvailable_DeletionTimestamp (cr : ImageRegistry)
    (s : ConditionStatus) (m : String) (ch : Bool) :
    ((conditionAvailable cr s m ch).1).DeletionTimestamp = cr.DeletionTimestamp := rfl

@[simp] theorem conditionProgressing_DeletionTimestamp (cr : ImageRegistry)
    (s : ConditionStatus) (m : String) (ch : Bool) :
    ((conditionProgressing cr s m ch).1).DeletionTimestamp = cr.DeletionTimestamp := rfl

@[simp] theorem conditionFailing_DeletionTimestamp (cr : ImageRegistry)
    (s : ConditionStatus) (m : String) (ch : Bool) :
    ((conditionFailing cr s m ch).1).DeletionTimestamp = cr.DeletionTimestamp := rfl

@[simp] theorem conditionRemoved_DeletionTimestamp (cr : ImageRegistry)
    (s : ConditionStatus) (m : String) (ch : Bool) :
    ((conditionRemoved cr s m ch).1).DeletionTimestamp = cr.DeletionTimestamp := rfl

@[simp] theorem appendFinalizer_Spec (cr : ImageRegistry) (m : Bool) :
    ((appendFinalizer cr m).1).Spec = cr.Spec := by
  unfold appendFinalizer; split <;> rfl

@[simp] theorem appendFinalizer_DeletionTimestamp (cr : ImageRegistry) (m : Bool) :
    ((appendFinalizer cr m).1).DeletionTimestamp = cr.DeletionTimestamp := by
  unfold appendFinalizer; split <;> rfl

@[simp] theorem appendFinalizer_Status (cr : ImageRegistry) (m : Bool) :
    ((appendFinalizer cr m).1).Status = cr.Status := by
  unfold appendFinalizer; split <;> rfl

@[simp] theorem createOrUpdateResources_cr (env : SyncEnv) (cr : ImageRegistry)
    (m : Bool) : (createOrUpdateResources env cr m).cr = (appendFinalizer cr m).1 := by
  unfold createOrUpdateResources
  repeat' split
  all_goals rfl

@[simp] theorem syncStatus_Spec (cr : ImageRegistry) (dp : Option Deployment)
    (ae : Option OpError) (ch : Bool) : ((syncStatus cr dp ae ch).1).Spec = cr.Spec := by
  unfold syncStatus; split <;> rfl

@[simp] theorem syncStatus_DeletionTimestamp (cr : ImageRegistry)
    (dp : Option Deployment) (ae : Option OpError) (ch : Bool) :
    ((syncStatus cr dp ae ch).1).DeletionTimestamp = cr.DeletionTimestamp := by
  unfold syncStatus; split <;> rfl

@[simp] theorem writePrep_Spec (cr : ImageRegistry) : (writePrep cr).Spec = cr.Spec := rfl

@[simp] theorem writePrep_DeletionTimestamp (cr : ImageRegistry) :
    (writePrep cr).DeletionTimestamp = cr.DeletionTimestamp := rfl

@[simp] theorem writePrep_Finalizers (cr : ImageRegistry) :
    (writePrep cr).Finalizers = cr.Finalizers := rfl

@[simp] theorem writePrep_Conditions (cr : ImageRegistry) :
    (writePrep cr).Status.Conditions = cr.Status.Conditions := rfl

@[simp] theorem writePrep_Hostname (cr : ImageRegistry) :
    (writePrep cr).Status.InternalRegistryHostname =
      cr.Status.InternalRegistryHostname := rfl

/-- The apply path performs no status write. -/
theorem createOrUpdateResources_no_write (env : SyncEnv) (cr : ImageRegistry)
    (m : Bool) : ∀ a ∈ (createOrUpdateResources env cr m).trace,
      SyncAction.writtenObject a = none := by
  unfold createOrUpdateResources
  repeat' split
  all_goals simp [SyncAction.writtenObject]

/-- The management-state branch performs no status write. -/
theorem branch_no_write (env : SyncEnv) (cr : ImageRegistry) :
    ∀ a ∈ (syncManagementBranch env cr).trace,
      SyncAction.writtenObject a = none := by
  obtain ⟨n, g, dt, fz, ann, ⟨ms, stg⟩, st⟩ := cr
  unfold syncManagementBranch CreateOrUpdateResources
  cases ms <;> (repeat' split) <;>
    first
      | exact fun a ha => createOrUpdateResources_no_write _ _ _ a ha
      | simp_all [SyncAction.writtenObject]

/-- A pass's trace is exactly the trace of its management-state branch. -/
theorem runPass_traceOf (env : SyncEnv) (watch : WatchEnv) (cr : ImageRegistry) :
    (runPass env watch cr).traceOf = (syncManagementBranch env cr).trace := by
  unfold runPass
  cases hdr : watch.deployResult <;>
    cases hb : (syncManagementBranch env cr).err <;>
      cases hsv : watch.svcResult <;>
        first
          | (simp [PassResult.traceOf, hb]; done)
          | (try simp only [hb]
             split
             · rename_i heq
               split at heq <;> simp_all [PassResult.traceOf]
             · simp [PassResult.traceOf])

/-! What each condition helper sets and leaves alone among the conditions. -/

@[simp] theorem conditionAvailable_sets (cr : ImageRegistry) (s : ConditionStatus)
    (m : String) (ch : Bool) :
    ((conditionAvailable cr s m ch).1).Status.Conditions.Available = ⟨s, m⟩ := rfl

@[simp] theorem conditionProgressing_sets (cr : ImageRegistry) (s : ConditionStatus)
    (m : String) (ch : Bool) :
    ((conditionProgressing cr s m ch).1).Status.Conditions.Progressing = ⟨s, m⟩ := rfl

@[simp] theorem conditionFailing_sets (cr : ImageRegistry) (s : ConditionStatus)
    (m : String) (ch : Bool) :
    ((conditionFailing cr s m ch).1).Status.Conditions.Failing = ⟨s, m⟩ := rfl

@[simp] theorem conditionRemoved_sets (cr : ImageRegistry) (s : ConditionStatus)
    (m : String) (ch : Bool) :
    ((conditionRemoved cr s m ch).1).Status.Conditions.Removed = ⟨s, m⟩ := rfl

/-! The idempotence of the change-tracking helpers: setting a condition to
the value it already has neither changes the object nor raises the flag. -/

theorem conditionAvailable_noop (cr : ImageRegistry) (s : ConditionStatus) (m : String)
    (h : cr.Status.Conditions.Available = ⟨s, m⟩) :
    conditionAvailable cr s m false = (cr, false) := by
  unfold conditionAvailable setConditionValue
  rw [← h]
  simp

theorem conditionProgressing_noop (cr : ImageRegistry) (s : ConditionStatus) (m : String)
    (h : cr.Status.Conditions.Progressing = ⟨s, m⟩) :
    conditionProgressing cr s m false = (cr, false) := by
  unfold conditionProgressing setConditionValue
  rw [← h]
  simp

theorem conditionFailing_noop (cr : ImageRegistry) (s : ConditionStatus) (m : String)
    (h : cr.Status.Conditions.Failing = ⟨s, m⟩) :
    conditionFailing cr s m false = (cr, false) := by
  unfold conditionFailing setConditionValue
  rw [← h]
  simp

theorem conditionRemoved_noop (cr : ImageRegistry) (s : ConditionStatus) (m : String)
    (h : cr.Status.Conditions.Removed = ⟨s, m⟩) :
    conditionRemoved cr s m false = (cr, false) := by
  unfold conditionRemoved setConditionValue
  rw [← h]
  simp

/-- The finalizer token is present after `appendFinalizer`. -/
theorem appendFinalizer_contains (cr : ImageRegistry) (m : Bool) :
    ((appendFinalizer cr m).1).Finalizers.contains operatorFinalizerToken = true := by
  unfold appendFinalizer
  split
  · simp_all
  · simp

/-- `appendFinalizer` is a no-op when the token is already present. -/
theorem appendFinalizer_noop (cr : ImageRegistry) (m : Bool)
    (h : cr.Finalizers.contains operatorFinalizerToken = true) :
    appendFinalizer cr m = (cr, m) := by
  have h2 : operatorFinalizerToken ∈ cr.Finalizers := by simpa using h
  unfold appendFinalizer
  simp [h2]

/-- `syncStatus` is a no-op outside the Managed state. -/
theorem syncStatus_nonmanaged (cr : ImageRegistry) (dp : Option Deployment)
    (ae : Option OpError) (ch : Bool)
    (h : cr.Spec.ManagementState ≠ ManagementState.Managed) :
    syncStatus cr dp ae ch = (cr, ch) := by
  unfold syncStatus
  simp [h]

set_option maxHeartbeats 1600000 in
/-- Re-running the pass body on the object a completed pass is about to
write, with the same collaborator results and no collaborator-reported
mutations, completes with the same object, an unraised change flag and the
same apply error: every condition helper, the finalizer append, the hostname
derivation and the derived status find their work already done. -/
theorem second_pass_fixed (env : SyncEnv) (watch : WatchEnv) (cr cr1 : ImageRegistry)
    (sc : Bool) (ae : Option OpError) (tr : List SyncAction)
    (hv : env.validateModified = false) (ha : env.applyModified = false)
    (h : runPass env watch cr = PassResult.completed cr1 sc ae tr) :
    runPass env watch (writePrep cr1) =
      PassResult.completed (writePrep cr1) false ae
        ((syncManagementBranch env (writePrep cr1)).trace) := by
  obtain ⟨n, g, dt, fz, ann, ⟨ms, stg⟩, ⟨⟨av, pr, fl, rv⟩, og, hn⟩⟩ := cr
  cases ms with
  | Unmanaged =>
    cases hsv : watch.svcResult with
    | errOther e =>
      cases hdr : watch.deployResult <;>
        (simp [runPass, syncManagementBranch, CreateOrUpdateResources,
            createOrUpdateResources, appendFinalizer, conditionAvailable,
            conditionProgressing, conditionFailing, conditionRemoved,
            setConditionValue, syncStatus, writePrep, addImageRegistryChecksum, *] at h <;>
          (obtain ⟨rfl, rfl, rfl, rfl⟩ := h) <;>
          simp [runPass, syncManagementBranch, CreateOrUpdateResources,
            createOrUpdateResources, appendFinalizer, conditionAvailable,
            conditionProgressing, conditionFailing, conditionRemoved,
            setConditionValue, syncStatus, writePrep, addImageRegistryChecksum, *])
    | notFound =>
      cases hdr : watch.deployResult <;>
        (simp [runPass, syncManagementBranch, CreateOrUpdateResources,
            createOrUpdateResources, appendFinalizer, conditionAvailable,
            conditionProgressing, conditionFailing, conditionRemoved,
            setConditionValue, syncStatus, writePrep, addImageRegistryChecksum, *] at h <;>
          (obtain ⟨rfl, rfl, rfl, rfl⟩ := h) <;>
          simp [runPass, syncManagementBranch, CreateOrUpdateResources,
            createOrUpdateResources, appendFinalizer, conditionAvailable,
            conditionProgressing, conditionFailing, conditionRemoved,
            setConditionValue, syncStatus, writePrep, addImageRegistryChecksum, *])
    | found svc =>
      by_cases hbne : hn = (svc.Name ++ "." ++ svc.Namespace
          ++ ".svc.cluster.local:" ++ toString svc.Port) <;>
        cases hdr : watch.deployResult <;>
          (simp [runPass, syncManagementBranch, CreateOrUpdateResources,
              createOrUpdateResources, appendFinalizer, conditionAvailable,
              conditionProgressing, conditionFailing, conditionRemoved,
              setConditionValue, syncStatus, writePrep, addImageRegistryChecksum, *] at h <;>
            (obtain ⟨rfl, rfl, rfl, rfl⟩ := h) <;>
            simp [runPass, syncManagementBranch, CreateOrUpdateResources,
              createOrUpdateResources, appendFinalizer, conditionAvailable,
              conditionProgressing, conditionFailing, conditionRemoved,
              setConditionValue, syncStatus, writePrep, addImageRegistryChecksum, *])
  | Force =>
    cases hsv : watch.svcResult with
    | errOther e =>
      cases hdr : watch.deployResult <;>
        (simp [runPass, syncManagementBranch, CreateOrUpdateResources,
            createOrUpdateResources, appendFinalizer, conditionAvailable,
            conditionProgressing, conditionFailing, conditionRemoved,
            setConditionValue, syncStatus, writePrep, addImageRegistryChecksum, *] at h <;>
          (obtain ⟨rfl, rfl, rfl, rfl⟩ := h) <;>
          simp [runPass, syncManagementBranch, CreateOrUpdateResources,
            createOrUpdateResources, appendFinalizer, conditionAvailable,
            conditionProgressing, conditionFailing, conditionRemoved,
            setConditionValue, syncStatus, writePrep, addImageRegistryChecksum, *])
    | notFound =>
      cases hdr : watch.deployResult <;>
        (simp [runPass, syncManagementBranch, CreateOrUpdateResources,
            createOrUpdateResources, appendFinalizer, conditionAvailable,
            conditionProgressing, conditionFailing, conditionRemoved,
            setConditionValue, syncStatus, writePrep, addImageRegistryChecksum, *] at h <;>
          (obtain ⟨rfl, rfl, rfl, rfl⟩ := h) <;>
          simp [runPass, syncManagementBranch, CreateOrUpdateResources,
            createOrUpdateResources, appendFinalizer, conditionAvailable,
            conditionProgressing, conditionFailing, conditionRemoved,
            setConditionValue, syncStatus, writePrep, addImageRegistryChecksum, *])
    | found svc =>
      by_cases hbne : hn = (svc.Name ++ "." ++ svc.Namespace
          ++ ".svc.cluster.local:" ++ toString svc.Port) <;>
        cases hdr : watch.deployResult <;>
          (simp [runPass, syncManagementBranch, CreateOrUpdateResources,
              createOrUpdateResources, appendFinalizer, conditionAvailable,
              conditionProgressing, conditionFailing, conditionRemoved,
              setConditionValue, syncStatus, writePrep, addImageRegistryChecksum, *] at h <;>
            (obtain ⟨rfl, rfl, rfl, rfl⟩ := h) <;>
            simp [runPass, syncManagementBranch, CreateOrUpdateResources,
              createOrUpdateResources, appendFinalizer, conditionAvailable,
              conditionProgressing, conditionFailing, conditionRemoved,
              setConditionValue, syncStatus, writePrep, addImageRegistryChecksum, *])
  | Removed =>
    cases hrm : env.removeResult <;>
      (cases hsv : watch.svcResult with
       | errOther e =>
         cases hdr : watch.deployResult <;>
           (simp [runPass, syncManagementBranch, CreateOrUpdateResources,
               createOrUpdateResources, appendFinalizer, conditionAvailable,
               conditionProgressing, conditionFailing, conditionRemoved,
               setConditionValue, syncStatus, writePrep, addImageRegistryChecksum, *] at h <;>
             (obtain ⟨rfl, rfl, rfl, rfl⟩ := h) <;>
             simp [runPass, syncManagementBranch, CreateOrUpdateResources,
               createOrUpdateResources, appendFinalizer, conditionAvailable,
               conditionProgressing, conditionFailing, conditionRemoved,
               setConditionValue, syncStatus, writePrep, addImageRegistryChecksum, *])
       | notFound =>
         cases hdr : watch.deployResult <;>
           (simp [runPass, syncManagementBranch, CreateOrUpdateResources,
               createOrUpdateResources, appendFinalizer, conditionAvailable,
               conditionProgressing, conditionFailing, conditionRemoved,
               setConditionValue, syncStatus, writePrep, addImageRegistryChecksum, *] at h <;>
             (obtain ⟨rfl, rfl, rfl, rfl⟩ := h) <;>
             simp [runPass, syncManagementBranch, CreateOrUpdateResources,
               createOrUpdateResources, appendFinalizer, conditionAvailable,
               conditionProgressing, conditionFailing, conditionRemoved,
               setConditionValue, syncStatus, writePrep, addImageRegistryChecksum, *])
       | found svc =>
         by_cases hbne : hn = (svc.Name ++ "." ++ svc.Namespace
             ++ ".svc.cluster.local:" ++ toString svc.Port) <;>
           cases hdr : watch.deployResult <;>
             (simp [runPass, syncManagementBranch, CreateOrUpdateResources,
                 createOrUpdateResources, appendFinalizer, conditionAvailable,
                 conditionProgressing, conditionFailing, conditionRemoved,
                 setConditionValue, syncStatus, writePrep, addImageRegistryChecksum, *] at h <;>
               (obtain ⟨rfl, rfl, rfl, rfl⟩ := h) <;>
               simp [runPass, syncManagementBranch, CreateOrUpdateResources,
                 createOrUpdateResources, appendFinalizer, conditionAvailable,
                 conditionProgressing, conditionFailing, conditionRemoved,
                 setConditionValue, syncStatus, writePrep, addImageRegistryChecksum, *]))
  | Managed =>
    by_cases hfz : operatorFinalizerToken ∈ fz <;>
      (cases hvr : env.verifyResult with
       | some e =>
         cases hdr : watch.deployResult <;>
           (simp [runPass, syncManagementBranch, CreateOrUpdateResources,
               createOrUpdateResources, appendFinalizer, conditionAvailable,
               conditionProgressing, conditionFailing, conditionRemoved,
               setConditionValue, syncStatus, writePrep, addImageRegistryChecksum, *] at h <;>
             (obtain ⟨rfl, rfl, rfl, rfl⟩ := h) <;>
             simp [runPass, syncManagementBranch, CreateOrUpdateResources,
               createOrUpdateResources, appendFinalizer, conditionAvailable,
               conditionProgressing, conditionFailing, conditionRemoved,
               setConditionValue, syncStatus, writePrep, addImageRegistryChecksum, *])
       | none =>
         cases hnd : env.newDriverResult with
         | error se =>
           cases se <;>
             cases hdr : watch.deployResult <;>
               (simp [runPass, syncManagementBranch, CreateOrUpdateResources,
                   createOrUpdateResources, appendFinalizer, conditionAvailable,
                   conditionProgressing, conditionFailing, conditionRemoved,
                   setConditionValue, syncStatus, writePrep, addImageRegistryChecksum, *] at h <;>
                 (obtain ⟨rfl, rfl, rfl, rfl⟩ := h) <;>
                 simp [runPass, syncManagementBranch, CreateOrUpdateResources,
                   createOrUpdateResources, appendFinalizer, conditionAvailable,
                   conditionProgressing, conditionFailing, conditionRemoved,
                   setConditionValue, syncStatus, writePrep, addImageRegistryChecksum, *])
         | ok drv =>
           cases hval : env.validateResult with
           | some e =>
             cases hdr : watch.deployResult <;>
               (simp [runPass, syncManagementBranch, CreateOrUpdateResources,
                   createOrUpdateResources, appendFinalizer, conditionAvailable,
                   conditionProgressing, conditionFailing, conditionRemoved,
                   setConditionValue, syncStatus, writePrep, addImageRegistryChecksum, *] at h <;>
                 (obtain ⟨rfl, rfl, rfl, rfl⟩ := h) <;>
                 simp [runPass, syncManagementBranch, CreateOrUpdateResources,
                   createOrUpdateResources, appendFinalizer, conditionAvailable,
                   conditionProgressing, conditionFailing, conditionRemoved,
                   setConditionValue, syncStatus, writePrep, addImageRegistryChecksum, *])
           | none =>
             cases hap : env.applyResult with
             | some e =>
               cases hdr : watch.deployResult <;>
                 (simp [runPass, syncManagementBranch, CreateOrUpdateResources,
                     createOrUpdateResources, appendFinalizer, conditionAvailable,
                     conditionProgressing, conditionFailing, conditionRemoved,
                     setConditionValue, syncStatus, writePrep, addImageRegistryChecksum, *] at h <;>
                   (obtain ⟨rfl, rfl, rfl, rfl⟩ := h) <;>
                   simp [runPass, syncManagementBranch, CreateOrUpdateResources,
                     createOrUpdateResources, appendFinalizer, conditionAvailable,
                     conditionProgressing, conditionFailing, conditionRemoved,
                     setConditionValue, syncStatus, writePrep, addImageRegistryChecksum, *])
             | none =>
               cases hsv : watch.svcResult with
               | errOther e =>
                 cases hdr : watch.deployResult <;>
                   (simp [runPass, syncManagementBranch, CreateOrUpdateResources,
                       createOrUpdateResources, appendFinalizer, conditionAvailable,
                       conditionProgressing, conditionFailing, conditionRemoved,
                       setConditionValue, syncStatus, writePrep, addImageRegistryChecksum, *] at h <;>
                     (obtain ⟨rfl, rfl, rfl, rfl⟩ := h) <;>
                     simp [runPass, syncManagementBranch, CreateOrUpdateResources,
                       createOrUpdateResources, appendFinalizer, conditionAvailable,
                       conditionProgressing, conditionFailing, conditionRemoved,
                       setConditionValue, syncStatus, writePrep, addImageRegistryChecksum, *])
               | notFound =>
                 cases hdr : watch.deployResult <;>
                   (simp [runPass, syncManagementBranch, CreateOrUpdateResources,
                       createOrUpdateResources, appendFinalizer, conditionAvailable,
                       conditionProgressing, conditionFailing, conditionRemoved,
                       setConditionValue, syncStatus, writePrep, addImageRegistryChecksum, *] at h <;>
                     (obtain ⟨rfl, rfl, rfl, rfl⟩ := h) <;>
                     simp [runPass, syncManagementBranch, CreateOrUpdateResources,
                       createOrUpdateResources, appendFinalizer, conditionAvailable,
                       conditionProgressing, conditionFailing, conditionRemoved,
                       setConditionValue, syncStatus, writePrep, addImageRegistryChecksum, *])
               | found svc =>
                 by_cases hbne : hn = (svc.Name ++ "." ++ svc.Namespace
                     ++ ".svc.cluster.local:" ++ toString svc.Port) <;>
                   cases hdr : watch.deployResult <;>
                     (simp [runPass, syncManagementBranch, CreateOrUpdateResources,
                         createOrUpdateResources, appendFinalizer, conditionAvailable,
                         conditionProgressing, conditionFailing, conditionRemoved,
                         setConditionValue, syncStatus, writePrep, addImageRegistryChecksum, *] at h <;>
                       (obtain ⟨rfl, rfl, rfl, rfl⟩ := h) <;>
                       simp [runPass, syncManagementBranch, CreateOrUpdateResources,
                         createOrUpdateResources, appendFinalizer, conditionAvailable,
                         conditionProgressing, conditionFailing, conditionRemoved,
                         setConditionValue, syncStatus, writePrep, addImageRegistryChecksum, *]))

/-- C5 as amended: the status write is gated on the pass's mutation flag
(raised only when a condition, the finalizer list, the hostname or the
observed state actually changed), not on comparing the recomputed
fingerprint with the stored annotation; consequently a pass re-run on the
object it just wrote, with the same collaborator results and no
collaborator-reported mutations, performs no second status write. -/
@[simp] theorem withFound_clientErr (env : SyncEnv) (x : ImageRegistry) :
    (withFound env x).clientErr = env.clientErr := rfl

@[simp] theorem withFound_getResult (env : SyncEnv) (x : ImageRegistry) :
    (withFound env x).getResult = CrGetResult.found x := rfl

/-- Replacing the fetched object leaves the pass body unchanged: `runPass`
never reads the fetch result. -/
@[simp] theorem runPass_withFound (env : SyncEnv) (x : ImageRegistry)
    (watch : WatchEnv) (y : ImageRegistry) :
    runPass (withFound env x) watch y = runPass env watch y := rfl

theorem c5_amended_no_second_write (env : SyncEnv) (watch : WatchEnv)
    (cr w : ImageRegistry)
    (hv : env.validateModified = false) (ha : env.applyModified = false)
    (h : writesOf (sync (withFound env cr) watch) = [w]) :
    writesOf (sync (withFound env w) watch) = [] := by
  cases hce : env.clientErr with
  | some e => simp [sync, hce, writesOf] at h
  | none =>
    cases hdt : cr.DeletionTimestamp.isSome with
    | true =>
      simp [sync, hce, hdt, writesOf, SyncAction.writtenObject] at h
    | false =>
      cases hrp : runPass env watch cr with
      | earlyErr e tr =>
        have htr := runPass_traceOf env watch cr
        rw [hrp] at htr
        simp [PassResult.traceOf] at htr
        subst htr
        have hnil : List.filterMap SyncAction.writtenObject
            (syncManagementBranch env cr).trace = [] :=
          List.filterMap_eq_nil.mpr (branch_no_write env cr)
        simp [sync, hce, hdt, hrp, writesOf, hnil] at h
      | completed cr1 sc ae tr =>
        have htr := runPass_traceOf env watch cr
        rw [hrp] at htr
        simp [PassResult.traceOf] at htr
        subst htr
        have hnil : List.filterMap SyncAction.writtenObject
            (syncManagementBranch env cr).trace = [] :=
          List.filterMap_eq_nil.mpr (branch_no_write env cr)
        cases sc with
        | false => simp [sync, hce, hdt, hrp, writesOf, hnil] at h
        | true =>
          simp [sync, hce, hdt, hrp, writesOf, hnil,
            SyncAction.writtenObject] at h
          subst h
          cases hdt2 : cr1.DeletionTimestamp.isSome with
          | true =>
            simp [sync, hce, hdt2, writesOf, SyncAction.writtenObject]
          | false =>
            have h2 := second_pass_fixed env watch cr cr1 true ae
              ((syncManagementBranch env cr).trace) hv ha hrp
            simp [sync, hce, hdt2, h2, writesOf]
            exact fun a ha => branch_no_write env (writePrep cr1) a ha

/-- A benign environment with no fetched object preset; the object under
test is plugged in through `withFound`. -/
def envBase : SyncEnv := benignEnv CrGetResult.notFound

/-- The object written by the first pass over the removed-state object (the
pass sets the Removed condition, so it writes exactly once). -/
def wC5 : ImageRegistry :=
  match writesOf (sync (withFound envBase crRemoved) watchNone) with
  | x :: _ => x
  | [] => crRemoved

/-- Witness for the amended C5: the first pass over the removed-state object
writes exactly one object, and re-running the pass on that written object
performs no write. -/
theorem c5_amended_no_second_write_witness :
    envBase.validateModified = false ∧ envBase.applyModified = false ∧
      writesOf (sync (withFound envBase crRemoved) watchNone) = [wC5] ∧
      writesOf (sync (withFound envBase wC5) watchNone) = [] :=
  ⟨rfl, rfl, rfl,
    c5_amended_no_second_write envBase watchNone crRemoved wC5 rfl rfl rfl⟩

end ImageRegistryOperator
